import Mathlib

/-
Verification of the SMPL tensor-bundle ingestion and export pipeline
(smpl/export_pose_data.py, smpl/extract_smpl_minimal.py,
smpl/extract_smpl_direct.py, smpl/export_shape_blend_shapes.py,
smpl/debug_pickle.py).

Shallow embedding notes.
* Numeric array payloads are modelled with exact integers (Int); the
  claims under check are structural and algebraic (shapes, flattening
  order, linearity, error propagation, dtype tags), not about
  floating-point rounding, so an exact carrier is faithful for them.
* numpy arrays are modelled as a row-major flat data list together with
  a shape, a dtype tag and a storage token; the storage token models
  Python object identity of the underlying buffer, which is needed to
  talk about aliasing versus copying.
* Fallible Python code is modelled with Except String.
-/

/-- numpy dtypes that occur in the scripts. -/
inductive DType where
  | float32
  | float64
  | int32
  | int64
deriving DecidableEq

/-- A numpy ndarray: row-major flat data plus logical shape.
storageId models the identity of the underlying buffer (two arrays
alias iff they carry the same token). -/
structure NDArray where
  storageId : Nat
  dtype : DType
  shape : List Nat
  data : List Int
deriving DecidableEq

/-- Size of dimension k (0 when the array has fewer dimensions). -/
def NDArray.dim (a : NDArray) (k : Nat) : Nat := a.shape.getD k 0

def NDArray.rows (a : NDArray) : Nat := a.dim 0

def NDArray.cols (a : NDArray) : Nat := a.dim 1

/-- Element (i, j) of a 2-D array under row-major layout. -/
def NDArray.at2 (a : NDArray) (i j : Nat) : Int :=
  a.data.getD (i * a.cols + j) 0

/-- Element (i, j, k) of a 3-D array under row-major layout. -/
def NDArray.at3 (a : NDArray) (i j k : Nat) : Int :=
  a.data.getD ((i * a.dim 1 + j) * a.dim 2 + k) 0

/-- Row-major flat data list of an r-by-c array with entries f. -/
def mkFlat (r c : Nat) (f : Nat → Nat → Int) : List Int :=
  (List.range (r * c)).map (fun n => f (n / c) (n % c))

/-- Two arrays alias iff they share the underlying buffer. -/
def sameStorage (x y : NDArray) : Prop := x.storageId = y.storageId

/-- numpy maps the built-in Python int to the platform default integer
(C long), which is 64-bit on the Linux/macOS platforms this repository
is developed and run on; astype(int) therefore produces int64. -/
def pyIntDType : DType := DType.int64

/-- The built-in Python float is the IEEE double, so astype(float)
produces float64. -/
def pyFloatDType : DType := DType.float64

/-- ndarray.astype: value-converting copy with the new dtype tag.  On
the exact integer carrier the float-to-int truncation is the identity,
so only the dtype tag changes. -/
def NDArray.astype (a : NDArray) (d : DType) : NDArray :=
  { a with dtype := d }

/-- The slice a[:, :, i] of a 3-D array followed by flatten(): a fresh
row-major 2-D array whose (v, c) entry is a[v, c, i]. -/
def sliceLast (a : NDArray) (i : Nat) : NDArray :=
  { storageId := a.storageId
    dtype := a.dtype
    shape := [a.dim 0, a.dim 1]
    data := mkFlat (a.dim 0) (a.dim 1) (fun v c => a.at3 v c i) }

/-- numpy matrix product a @ b of 2-D arrays (contraction over the
columns of a, which equal the rows of b for conforming inputs). -/
def matmul2d (a b : NDArray) : NDArray :=
  { storageId := 0
    dtype := DType.float64
    shape := [a.rows, b.cols]
    data := mkFlat a.rows b.cols (fun i j =>
      ((List.range a.cols).map (fun k => a.at2 i k * b.at2 k j)).sum) }

/-- Scaling every entry of an array by the scalar k (k * vertexTemplate
in the linearity property). -/
def scaleArr (k : Int) (a : NDArray) : NDArray :=
  { a with data := a.data.map (fun x => k * x) }

/-- ndarray.tolist() of a 2-D array: nested row lists. -/
def toList2 (a : NDArray) : List (List Int) :=
  (List.range a.rows).map (fun i => (List.range a.cols).map (fun j => a.at2 i j))

/-- A scipy sparse matrix as stored in the pickle: declared size plus
coordinate triplets. -/
structure SparseMat where
  rows : Nat
  cols : Nat
  triples : List (Nat × Nat × Int)
deriving DecidableEq

/-- sparse.todense(): zero-initialized dense array of the declared
shape with the triplets scatter-added into it. -/
def SparseMat.todense (s : SparseMat) : NDArray :=
  { storageId := 0
    dtype := DType.float64
    shape := [s.rows, s.cols]
    data := mkFlat s.rows s.cols (fun i j =>
      ((s.triples.filter (fun t => t.1 == i && t.2.1 == j)).map (fun t => t.2.2)).sum) }

/-- A deserialized Python value as seen by extract_numpy_array:
either a genuine numpy ndarray, a generic object carrying an attribute
mapping (its instance state), or a plain numeric scalar.  For a
generic object, hasArrayIface models hasattr(obj, __array__) and
npArray models the outcome of np.array(obj) (none when that call
raises). -/
inductive PyObj where
  | ndarray (a : NDArray)
  | obj (attrs : List (String × PyObj)) (hasArrayIface : Bool) (npArray : Option NDArray)
  | scalar (x : Int)

/-- getattr via the attribute mapping; first binding wins. -/
def lookupAttr (attrs : List (String × PyObj)) (k : String) : Option PyObj :=
  match attrs.find? (fun p => p.1 == k) with
  | some p => some p.2
  | none => none

/-- The fixed attribute priority list of extract_numpy_array. -/
def extractAttrNames : List String := ["x", "r", "_value", "data", "array"]

/-- The attribute loop of extract_numpy_array.  For each candidate
name in order: if the attribute is present and its value is an
ndarray, return it; else if the value supports __array__, return
np.array(value) (inner none = that call raised, which propagates
uncaught since the loop is outside the try block); otherwise continue.
Outer none = the loop fell through. -/
def attrLoop (attrs : List (String × PyObj)) : List String → Option (Option NDArray)
  | [] => none
  | k :: rest =>
    match lookupAttr attrs k with
    | some (PyObj.ndarray a) => some (some a)
    | some (PyObj.obj _ true npa) => some npa
    | some _ => attrLoop attrs rest
    | none => attrLoop attrs rest

/-- The last-resort scan of obj.__dict__ for the first ndarray value. -/
def firstNdarrayAttr : List (String × PyObj) → Option NDArray
  | [] => none
  | (_, PyObj.ndarray a) :: _ => some a
  | _ :: rest => firstNdarrayAttr rest

/-- extract_numpy_array (export_pose_data.py:48, identical in
extract_smpl_minimal.py:47): return a dense input as-is; otherwise
probe the attributes x, r, _value, data, array; otherwise try
np.array(obj) and, if that raises, scan __dict__ for an ndarray;
otherwise raise ValueError. -/
def extract_numpy_array : PyObj → Except String NDArray
  | PyObj.ndarray a => Except.ok a
  | PyObj.scalar x => Except.ok ⟨0, DType.int64, [], [x]⟩
  | PyObj.obj attrs _ npa =>
    match attrLoop attrs extractAttrNames with
    | some (some a) => Except.ok a
    | some none => Except.error "np.array raised while converting a wrapped value"
    | none =>
      match npa with
      | some a => Except.ok a
      | none =>
        match firstNdarrayAttr attrs with
        | some a => Except.ok a
        | none => Except.error "Could not extract array"

/-- The stand-in class of the pipeline scripts (export_pose_data.py:19,
extract_smpl_minimal.py:18): its init body is pass, so the constructed
instance holds no state at all. -/
structure DummyStubPose where
deriving DecidableEq

/-- Constructing the pipeline stub: all positional and keyword
arguments are accepted and ignored. -/
def dummyClassPoseInit (args : List PyObj) (kwargs : List (String × PyObj)) : DummyStubPose :=
  {}

/-- The stand-in class of the debug script (debug_pickle.py:9): it
stores args and kwargs verbatim in instance fields. -/
structure DummyStubDebug where
  _args : List PyObj
  _kwargs : List (String × PyObj)

/-- Constructing the debug stub stores both argument sequences. -/
def dummyClassDebugInit (args : List PyObj) (kwargs : List (String × PyObj)) : DummyStubDebug :=
  { _args := args, _kwargs := kwargs }

/-- Python str.startswith on character lists. -/
def listStartsWith : List Char → List Char → Bool
  | _, [] => true
  | [], _ :: _ => false
  | a :: as, b :: bs => a == b && listStartsWith as bs

/-- Python substring membership (sub in s) on character lists. -/
def listContainsSub : List Char → List Char → Bool
  | [], sub => listStartsWith [] sub
  | c :: rest, sub => listStartsWith (c :: rest) sub || listContainsSub rest sub

def strStartsWith (s p : String) : Bool := listStartsWith s.data p.data

def strContains (s sub : String) : Bool := listContainsSub s.data sub.data

/-- Outcome of find_class for a referenced module name: either the
name is handed to the normal resolver (the original class, unchanged,
with an error when it cannot be found) or it is replaced by the stub
stand-in. -/
inductive ClassResolution where
  | passThrough
  | stub
deriving DecidableEq

/-- find_class of SMPLUnpickler in export_pose_data.py:33: numpy- and
scipy-qualified names are handed through, names containing chumpy are
stubbed, everything else resolves normally. -/
def findClassPoseScript (module : String) : ClassResolution :=
  if strStartsWith module "numpy" || strStartsWith module "scipy" then ClassResolution.passThrough
  else if strContains module "chumpy" then ClassResolution.stub
  else ClassResolution.passThrough

/-- find_class of SMPLUnpickler in extract_smpl_minimal.py:32 (and
debug_pickle.py:24): identical except that only numpy-qualified names
are handed through in the first tier. -/
def findClassMinimalScript (module : String) : ClassResolution :=
  if strStartsWith module "numpy" then ClassResolution.passThrough
  else if strContains module "chumpy" then ClassResolution.stub
  else ClassResolution.passThrough

/-- The resolution policy exactly as the spec words it (three tiers):
(1) native numeric-array and sparse-matrix types pass through
unchanged; (2) names of the legacy body-model library (chumpy) get the
stub; (3) everything else resolves normally, failing when not found.
Tiers 1 and 3 both map to passThrough because handing a name to the
normal resolver is precisely how the scripts realize both tiers. -/
def specThreeTierResolution (module : String) : ClassResolution :=
  if strStartsWith module "numpy" || strStartsWith module "scipy" then ClassResolution.passThrough
  else if strContains module "chumpy" then ClassResolution.stub
  else ClassResolution.passThrough

/-- The raw J_regressor field: a scipy sparse matrix (which has a
todense method) or any other deserialized value. -/
inductive RegressorRaw where
  | sparse (s : SparseMat)
  | denseLike (o : PyObj)

/-- The raw model mapping as export_smpl_pose_data reads it.  The
required fields are those the function indexes unconditionally;
posedirs is optional (the script tests key membership). -/
structure SMPLModelRaw where
  v_template : PyObj
  J_regressor : RegressorRaw
  kintree_table : PyObj
  weights : PyObj
  posedirs : Option PyObj

/-- The dense joint regressor: np.array(sparse.todense()) when the
field has a todense method, extract_numpy_array otherwise
(export_pose_data.py:86). -/
def extractRegressor : RegressorRaw → Except String NDArray
  | RegressorRaw.sparse s => Except.ok s.todense
  | RegressorRaw.denseLike o => extract_numpy_array o

/-- The hard-coded SMPL joint name list (export_pose_data.py:119). -/
def smplJointNames : List String :=
  ["pelvis", "left_hip", "right_hip", "spine1", "left_knee", "right_knee",
   "spine2", "left_ankle", "right_ankle", "spine3", "left_foot", "right_foot",
   "neck", "left_collar", "right_collar", "head", "left_shoulder",
   "right_shoulder", "left_elbow", "right_elbow", "left_wrist", "right_wrist",
   "left_hand", "right_hand"]

/-- The JSON document written by export_smpl_pose_data
(export_pose_data.py:147). -/
structure PoseDocument where
  num_joints : Nat
  num_vertices : Nat
  v_template : List Int
  j_regressor : List Int
  joint_positions : List Int
  kintree_table : List (List Int)
  weights : List Int
  joint_names : List String
  posedirs : Option (List Int)
  num_pose_params : Option Nat
deriving DecidableEq

/-- export_smpl_pose_data (export_pose_data.py:73): extract
v_template, densify or extract J_regressor, compute the joint
positions as J_regressor @ v_template, extract kintree_table and
weights, and try posedirs inside a try block whose except clause keeps
posedirs = None; then assemble the flattened document.  Extraction
failures of the required fields propagate as errors. -/
def export_smpl_pose_data (model : SMPLModelRaw) : Except String PoseDocument :=
  match extract_numpy_array model.v_template with
  | Except.error e => Except.error e
  | Except.ok v_template =>
    match extractRegressor model.J_regressor with
    | Except.error e => Except.error e
    | Except.ok jReg =>
      let joint_positions := matmul2d jReg v_template
      match extract_numpy_array model.kintree_table with
      | Except.error e => Except.error e
      | Except.ok kintree =>
        match extract_numpy_array model.weights with
        | Except.error e => Except.error e
        | Except.ok w =>
          let pd : Option NDArray :=
            match model.posedirs with
            | none => none
            | some o =>
              match extract_numpy_array o with
              | Except.ok a => some a
              | Except.error _ => none
          Except.ok
            { num_joints := joint_positions.rows
              num_vertices := v_template.rows
              v_template := v_template.data
              j_regressor := jReg.data
              joint_positions := joint_positions.data
              kintree_table := toList2 kintree
              weights := w.data
              joint_names := smplJointNames
              posedirs := pd.map NDArray.data
              num_pose_params := pd.map (fun a => a.dim 2) }

/-- Number of sentinel (-1) entries in the parent row (row 0) of a
kinematic table; spec-side notion used to state the kinematic
validation claim.  The scripts themselves never compute this. -/
def rootCount (kt : NDArray) : Nat :=
  ((List.range kt.cols).filter (fun j => kt.at2 0 j == -1)).length

/-- The JSON document written by the shape exporters
(export_shape_blend_shapes.py:33, extract_smpl_minimal.py:97,
extract_smpl_direct.py:58). -/
structure ShapeDocument where
  num_vertices : Nat
  num_faces : Nat
  num_betas : Nat
  v_template : List Int
  faces : List Int
  shapedirs : List (List Int)
deriving DecidableEq

/-- Document assembly of export_smpl_shapedirs
(export_shape_blend_shapes.py:33): flatten v_template and faces
row-major; for each beta i flatten the slice shapedirs[:, :, i]. -/
def export_smpl_shapedirs_doc (v_template shapedirs faces : NDArray) : ShapeDocument :=
  { num_vertices := v_template.rows
    num_faces := faces.rows
    num_betas := shapedirs.dim 2
    v_template := v_template.data
    faces := faces.data
    shapedirs := (List.range (shapedirs.dim 2)).map (fun i => (sliceLast shapedirs i).data) }

/-- v_template.astype(float) in load_and_export_smpl
(extract_smpl_minimal.py:101). -/
def minimalVTemplateField (v : NDArray) : NDArray := v.astype pyFloatDType

/-- faces.astype(int) in load_and_export_smpl
(extract_smpl_minimal.py:102). -/
def minimalFacesField (f : NDArray) : NDArray := f.astype pyIntDType

/-- shapedirs[:, :, i].astype(float) in load_and_export_smpl
(extract_smpl_minimal.py:103). -/
def minimalShapedirsField (sd : NDArray) (i : Nat) : NDArray :=
  (sliceLast sd i).astype pyFloatDType

/-- v_template used directly, with no astype, in export_to_json
(extract_smpl_direct.py:62). -/
def directVTemplateField (v : NDArray) : NDArray := v

/-- faces.astype(int) in export_to_json (extract_smpl_direct.py:63). -/
def directFacesField (f : NDArray) : NDArray := f.astype pyIntDType

/-- shapedirs[:, :, i] with no astype in export_to_json
(extract_smpl_direct.py:65). -/
def directShapedirsField (sd : NDArray) (i : Nat) : NDArray := sliceLast sd i

/-- The part of export_smpl_pose_data that handles the optional pose
basis (export_pose_data.py:110): the try block whose except clause
leaves posedirs = None, factored out as a definition. -/
def exportPosedirsOpt (m : SMPLModelRaw) : Option NDArray :=
  match m.posedirs with
  | none => none
  | some o =>
    match extract_numpy_array o with
    | Except.ok a => some a
    | Except.error _ => none

/- Concrete sample values used by the witnesses and counterexamples. -/

def vtTwo : NDArray := ⟨1, DType.float64, [2, 3], [1, 2, 3, 4, 5, 6]⟩

def regTwo : NDArray := ⟨2, DType.float64, [2, 2], [1, 0, 1, 1]⟩

def kintreeTwoRoots : NDArray := ⟨3, DType.int64, [2, 2], [-1, -1, 0, 1]⟩

def kintreeOneRoot : NDArray := ⟨4, DType.int64, [2, 2], [-1, 0, 0, 1]⟩

def wTwo : NDArray := ⟨5, DType.float64, [2, 2], [1, 0, 0, 1]⟩

/-- A two-joint raw model whose kinematic table claims two roots. -/
def modelTwoRoots : SMPLModelRaw :=
  { v_template := PyObj.ndarray vtTwo
    J_regressor := RegressorRaw.denseLike (PyObj.ndarray regTwo)
    kintree_table := PyObj.ndarray kintreeTwoRoots
    weights := PyObj.ndarray wTwo
    posedirs := none }

/-- A deserialized value from which no array can be extracted: no
wrapper attributes, no __array__, and np.array on it raises. -/
def badExtractObj : PyObj := PyObj.obj [] false none

/-- A raw model whose posedirs field is present but unextractable. -/
def modelBadPosedirs : SMPLModelRaw :=
  { v_template := PyObj.ndarray vtTwo
    J_regressor := RegressorRaw.denseLike (PyObj.ndarray regTwo)
    kintree_table := PyObj.ndarray kintreeOneRoot
    weights := PyObj.ndarray wTwo
    posedirs := some badExtractObj }

/-- A raw model whose joint regressor arrives as a sparse matrix. -/
def modelSparseReg : SMPLModelRaw :=
  { v_template := PyObj.ndarray vtTwo
    J_regressor := RegressorRaw.sparse ⟨2, 2, [(0, 0, 1), (1, 0, 1), (1, 1, 1)]⟩
    kintree_table := PyObj.ndarray kintreeOneRoot
    weights := PyObj.ndarray wTwo
    posedirs := none }

def regW : NDArray := ⟨6, DType.float64, [2, 2], [1, 2, 3, 4]⟩

def vtW : NDArray := ⟨7, DType.float64, [2, 3], [1, 0, 2, 0, 1, 3]⟩

def facesInt32 : NDArray := ⟨8, DType.int32, [1, 3], [0, 1, 2]⟩

def vtFloat32 : NDArray := ⟨9, DType.float32, [1, 3], [1, 2, 3]⟩

def vtS : NDArray := ⟨10, DType.float64, [2, 3], [1, 2, 3, 4, 5, 6]⟩

def sdS : NDArray := ⟨11, DType.float64, [2, 3, 2], [1, 2, 3, 4, 5, 6, 7, 8, 9, 10, 11, 12]⟩

def fcS : NDArray := ⟨12, DType.int32, [1, 3], [0, 1, 2]⟩

def a4 : NDArray := ⟨13, DType.float64, [1, 3], [1, 2, 3]⟩

/- Helper lemmas. -/

/-- Reading back the (i, j) entry of a row-major flat list. -/
theorem mkFlat_getD (r c : Nat) (f : Nat → Nat → Int) (i j : Nat)
    (hi : i < r) (hj : j < c) :
    (mkFlat r c f).getD (i * c + j) 0 = f i j := by
  have hc : 0 < c := by omega
  have hlt : i * c + j < r * c := by
    have h1 : i * c + j < (i + 1) * c := by
      calc i * c + j < i * c + c := by omega
        _ = (i + 1) * c := by ring
    exact Nat.lt_of_lt_of_le h1 (Nat.mul_le_mul_right c hi)
  unfold mkFlat
  rw [List.getD_eq_getElem?_getD, List.getElem?_map, List.getElem?_range hlt]
  simp only [Option.map_some', Option.getD_some]
  congr 1
  · rw [Nat.add_comm, Nat.add_mul_div_right _ _ hc, Nat.div_eq_of_lt hj, Nat.zero_add]
  · rw [Nat.add_comm, Nat.add_mul_mod_self_right, Nat.mod_eq_of_lt hj]

/-- Entry i of a mapped range list. -/
theorem getD_map_range {α : Type} (n i : Nat) (f : Nat → α) (d : α) (h : i < n) :
    ((List.range n).map f).getD i d = f i := by
  rw [List.getD_eq_getElem?_getD, List.getElem?_map, List.getElem?_range h]
  simp

/-- getD commutes with entrywise scaling (the default 0 is fixed). -/
theorem getD_map_mul (l : List Int) (k : Int) (n : Nat) :
    (l.map (fun x => k * x)).getD n 0 = k * l.getD n 0 := by
  rw [List.getD_eq_getElem?_getD, List.getD_eq_getElem?_getD, List.getElem?_map]
  cases h : l[n]? with
  | none => simp
  | some a => simp

theorem scaleArr_cols (k : Int) (a : NDArray) : (scaleArr k a).cols = a.cols := rfl

/-- Entries of a scaled array. -/
theorem scaleArr_at2 (k : Int) (a : NDArray) (i j : Nat) :
    (scaleArr k a).at2 i j = k * a.at2 i j := by
  unfold NDArray.at2
  rw [scaleArr_cols]
  exact getD_map_mul a.data k (i * a.cols + j)

/- C1 -/

/-- C1: for a joint regressor of shape J x V and a vertex template of
shape V x 3, the derived joint-position array J_regressor @ v_template
has shape J x 3 and its (j, c) entry is the sum over all vertices v of
regressor[j, v] * template[v, c]. -/
theorem c1_joint_derivation_is_matrix_product (R T : NDArray) (J V : Nat)
    (hR : R.shape = [J, V]) (hT : T.shape = [V, 3]) :
    (matmul2d R T).shape = [J, 3] ∧
    ∀ j c, j < J → c < 3 →
      (matmul2d R T).at2 j c
        = ((List.range V).map (fun v => R.at2 j v * T.at2 v c)).sum := by
  have hRrows : R.rows = J := by simp [NDArray.rows, NDArray.dim, hR]
  have hRcols : R.cols = V := by simp [NDArray.cols, NDArray.dim, hR]
  have hTcols : T.cols = 3 := by simp [NDArray.cols, NDArray.dim, hT]
  constructor
  · show [R.rows, T.cols] = [J, 3]
    rw [hRrows, hTcols]
  · intro j c hj hc
    have hj2 : j < R.rows := by rw [hRrows]; exact hj
    have hc2 : c < T.cols := by rw [hTcols]; exact hc
    have hidx : (matmul2d R T).at2 j c
        = (mkFlat R.rows T.cols (fun i j2 =>
            ((List.range R.cols).map (fun k => R.at2 i k * T.at2 k j2)).sum)).getD
            (j * T.cols + c) 0 := rfl
    rw [hidx, mkFlat_getD _ _ _ _ _ hj2 hc2, hRcols]

/-- C1 witness: the hypotheses hold at a concrete 2x2 regressor and a
concrete 2x3 template. -/
theorem c1_witness :
    (matmul2d regW vtW).shape = [2, 3] ∧
    ∀ j c, j < 2 → c < 3 →
      (matmul2d regW vtW).at2 j c
        = ((List.range 2).map (fun v => regW.at2 j v * vtW.at2 v c)).sum :=
  c1_joint_derivation_is_matrix_product regW vtW 2 2 rfl rfl

/- C9 -/

/-- C9: joint derivation is a pure function (two runs on equal inputs
agree) and is linear in the vertex template: scaling the template by
any integer scalar k scales the whole derived joint-position array,
entry for entry, by k. -/
theorem c9_joint_derivation_deterministic_and_linear :
    (∀ R T R2 T2 : NDArray, R = R2 → T = T2 → matmul2d R T = matmul2d R2 T2) ∧
    (∀ (k : Int) (R T : NDArray),
      matmul2d R (scaleArr k T) = scaleArr k (matmul2d R T)) := by
  constructor
  · intro R T R2 T2 h1 h2
    rw [h1, h2]
  · intro k R T
    have hdata :
        mkFlat R.rows T.cols (fun i j =>
          ((List.range R.cols).map (fun v => R.at2 i v * (scaleArr k T).at2 v j)).sum)
        = (mkFlat R.rows T.cols (fun i j =>
            ((List.range R.cols).map (fun v => R.at2 i v * T.at2 v j)).sum)).map
            (fun x => k * x) := by
      unfold mkFlat
      rw [List.map_map]
      apply List.map_congr_left
      intro n _
      show ((List.range R.cols).map
          (fun v => R.at2 (n / T.cols) v * (scaleArr k T).at2 v (n % T.cols))).sum
        = k * ((List.range R.cols).map
          (fun v => R.at2 (n / T.cols) v * T.at2 v (n % T.cols))).sum
      calc ((List.range R.cols).map
              (fun v => R.at2 (n / T.cols) v * (scaleArr k T).at2 v (n % T.cols))).sum
          = ((List.range R.cols).map
              (fun v => k * (R.at2 (n / T.cols) v * T.at2 v (n % T.cols)))).sum := by
            apply congrArg List.sum
            apply List.map_congr_left
            intro v _
            rw [scaleArr_at2]
            ring
        _ = k * ((List.range R.cols).map
              (fun v => R.at2 (n / T.cols) v * T.at2 v (n % T.cols))).sum := by
            rw [List.sum_map_mul_left]
    exact congrArg (fun d => NDArray.mk 0 DType.float64 [R.rows, T.cols] d) hdata

/- C4 -/

/-- C4 counterexample: extracting an already-dense array returns the
input array itself, which by definition shares its storage (same
buffer token); the claim that the result never aliases the input is
therefore false. -/
theorem c4_counterexample :
    ∃ out, extract_numpy_array (PyObj.ndarray a4) = Except.ok out ∧
      sameStorage out a4 ∧ out.data = a4.data :=
  ⟨a4, rfl, rfl, rfl⟩

/-- C4 amended: for a raw value that is already a dense array,
extraction returns that array as-is — element-wise equal because it is
the same array, and aliasing its storage; no copy is made. -/
theorem c4_amended_dense_input_returned_as_is (a : NDArray) :
    extract_numpy_array (PyObj.ndarray a) = Except.ok a ∧ sameStorage a a :=
  ⟨rfl, rfl⟩

/- C3 -/

/-- C3 counterexample: the pipeline stub discards its constructor
arguments — constructing it with the numeric payload 42 yields the
very same value as constructing it with 99, so the argument is not
stored and no inspection can recover it. -/
theorem c3_counterexample :
    dummyClassPoseInit [PyObj.scalar 42] [] = dummyClassPoseInit [PyObj.scalar 99] [] ∧
    (42 : Int) ≠ 99 :=
  ⟨rfl, by decide⟩

/-- C3 amended: construction of either stand-in is total (never
raises) for arbitrary argument lists; the debug-script stub stores the
arguments verbatim in its fields, while the pipeline stub stores
nothing at all. -/
theorem c3_amended_stub_construction (args : List PyObj) (kwargs : List (String × PyObj)) :
    (dummyClassDebugInit args kwargs)._args = args ∧
    (dummyClassDebugInit args kwargs)._kwargs = kwargs ∧
    dummyClassPoseInit args kwargs = {} :=
  ⟨rfl, rfl, rfl⟩

/- C7 -/

/-- C7 counterexample: the face list is coerced with astype(int),
which is the 64-bit platform integer rather than int32; and the direct
exporter applies no dtype coercion to the vertex template at all, so a
float32 template is not turned into float64. -/
theorem c7_counterexample :
    (minimalFacesField facesInt32).dtype ≠ DType.int32 ∧
    (directVTemplateField vtFloat32).dtype ≠ DType.float64 := by
  exact ⟨by decide, by decide⟩

/-- C7 amended: extract_smpl_minimal coerces the geometric tensors to
float64 and the face list to the platform default 64-bit integer;
extract_smpl_direct coerces only the face list (same 64-bit integer)
and leaves the vertex template and the shape-basis slices in their
original dtype. -/
theorem c7_amended_dtype_coercion (v f sd : NDArray) (i : Nat) :
    (minimalVTemplateField v).dtype = DType.float64 ∧
    (minimalShapedirsField sd i).dtype = DType.float64 ∧
    (minimalFacesField f).dtype = DType.int64 ∧
    (directFacesField f).dtype = DType.int64 ∧
    (directVTemplateField v).dtype = v.dtype ∧
    (directShapedirsField sd i).dtype = sd.dtype :=
  ⟨rfl, rfl, rfl, rfl, rfl, rfl⟩

/- C5 -/

/-- C5 counterexample: extract_smpl_minimal checks only the numpy
prefix in its first tier, so a scipy-qualified name whose text
contains chumpy is stubbed instead of passed through, diverging from
the three-tier policy the spec states (which export_pose_data follows). -/
theorem c5_counterexample :
    findClassMinimalScript "scipy.sparse.chumpy_shim" = ClassResolution.stub ∧
    specThreeTierResolution "scipy.sparse.chumpy_shim" = ClassResolution.passThrough := by
  exact ⟨by decide, by decide⟩

/-- A name that starts with scipy cannot start with numpy (the first
characters differ), so the numpy tier of the minimal resolver never
fires on scipy-qualified names. -/
theorem not_numpy_of_scipy (m : String) (h : strStartsWith m "scipy" = true) :
    strStartsWith m "numpy" = false := by
  unfold strStartsWith at h ⊢
  cases hd : m.data with
  | nil =>
    rw [hd] at h
    exact absurd h (by decide)
  | cons a rest =>
    rw [hd] at h
    have hstep : listStartsWith (a :: rest) (String.data "scipy")
        = ((a == 's') && listStartsWith rest ['c', 'i', 'p', 'y']) := rfl
    rw [hstep] at h
    have ha : a = 's' := eq_of_beq (Bool.and_eq_true _ _ |>.mp h).1
    have hstep2 : listStartsWith (a :: rest) (String.data "numpy")
        = ((a == 'n') && listStartsWith rest ['u', 'm', 'p', 'y']) := rfl
    rw [hstep2, ha, show (('s' : Char) == 'n') = false from by decide, Bool.false_and]

/-- C5 amended: the export_pose_data resolver realizes the three-tier
policy exactly as the spec states it, for every module name.  The
extract_smpl_minimal resolver omits scipy from its first tier: on
every name that starts with scipy and contains chumpy it returns the
stub — although the three-tier policy passes every scipy-qualified
name through — and on every other name it agrees with the policy. -/
theorem c5_amended_resolution_policy (module : String) :
    findClassPoseScript module = specThreeTierResolution module ∧
    findClassMinimalScript module =
      (if strStartsWith module "scipy" && strContains module "chumpy"
       then ClassResolution.stub
       else specThreeTierResolution module) ∧
    (strStartsWith module "scipy" = true →
      specThreeTierResolution module = ClassResolution.passThrough) := by
  refine ⟨rfl, ?_, ?_⟩
  · cases hn : strStartsWith module "numpy" with
    | true =>
      have hs : strStartsWith module "scipy" = false := by
        cases hs2 : strStartsWith module "scipy" with
        | false => rfl
        | true =>
          rw [not_numpy_of_scipy module hs2] at hn
          exact absurd hn (by decide)
      simp [findClassMinimalScript, specThreeTierResolution, hn, hs]
    | false =>
      cases hs : strStartsWith module "scipy" with
      | false =>
        cases hc : strContains module "chumpy" with
        | true => simp [findClassMinimalScript, specThreeTierResolution, hn, hs, hc]
        | false => simp [findClassMinimalScript, specThreeTierResolution, hn, hs, hc]
      | true =>
        cases hc : strContains module "chumpy" with
        | true => simp [findClassMinimalScript, specThreeTierResolution, hn, hs, hc]
        | false => simp [findClassMinimalScript, specThreeTierResolution, hn, hs, hc]
  · intro hs
    simp [specThreeTierResolution, hs]

/-- C5 witness: at a concrete scipy-and-chumpy module name, the
amended statement yields the stub from the minimal resolver while the
policy — followed by the pose-script resolver — passes it through. -/
theorem c5_witness :
    findClassPoseScript "scipy.sparse.chumpy_compat"
        = specThreeTierResolution "scipy.sparse.chumpy_compat" ∧
    findClassMinimalScript "scipy.sparse.chumpy_compat" = ClassResolution.stub ∧
    specThreeTierResolution "scipy.sparse.chumpy_compat" = ClassResolution.passThrough :=
  ⟨(c5_amended_resolution_policy "scipy.sparse.chumpy_compat").1,
   ((c5_amended_resolution_policy "scipy.sparse.chumpy_compat").2.1).trans (by decide),
   (c5_amended_resolution_policy "scipy.sparse.chumpy_compat").2.2 (by decide)⟩

/- C8 -/

/-- C8: on a model with V vertices, B shape components and F faces,
the exported shapedirs field has exactly B entries; entry i has length
V*3 and holds, at flat position v*3+c, coordinate c of the vertex-v
displacement of shape component i (row-major x,y,z per vertex); and
v_template and faces are likewise row-major flattenings of their V x 3
and F x 3 arrays. -/
theorem c8_export_rowmajor_flattening (vt sd fc : NDArray) (V B F : Nat)
    (hvt : vt.shape = [V, 3]) (hsd : sd.shape = [V, 3, B]) (hfc : fc.shape = [F, 3]) :
    (export_smpl_shapedirs_doc vt sd fc).num_betas = B ∧
    (export_smpl_shapedirs_doc vt sd fc).shapedirs.length = B ∧
    (∀ i, i < B → ((export_smpl_shapedirs_doc vt sd fc).shapedirs.getD i []).length = V * 3) ∧
    (∀ i v c, i < B → v < V → c < 3 →
      ((export_smpl_shapedirs_doc vt sd fc).shapedirs.getD i []).getD (v * 3 + c) 0
        = sd.at3 v c i) ∧
    (∀ v c, v < V → c < 3 →
      (export_smpl_shapedirs_doc vt sd fc).v_template.getD (v * 3 + c) 0 = vt.at2 v c) ∧
    (∀ t c, t < F → c < 3 →
      (export_smpl_shapedirs_doc vt sd fc).faces.getD (t * 3 + c) 0 = fc.at2 t c) := by
  have hd0 : sd.dim 0 = V := by simp [NDArray.dim, hsd]
  have hd1 : sd.dim 1 = 3 := by simp [NDArray.dim, hsd]
  have hd2 : sd.dim 2 = B := by simp [NDArray.dim, hsd]
  have hvc : vt.cols = 3 := by simp [NDArray.cols, NDArray.dim, hvt]
  have hfcc : fc.cols = 3 := by simp [NDArray.cols, NDArray.dim, hfc]
  refine ⟨hd2, ?_, ?_, ?_, ?_, ?_⟩
  · show ((List.range (sd.dim 2)).map (fun i => (sliceLast sd i).data)).length = B
    rw [List.length_map, List.length_range, hd2]
  · intro i hi
    have hi2 : i < sd.dim 2 := by rw [hd2]; exact hi
    show (((List.range (sd.dim 2)).map (fun i => (sliceLast sd i).data)).getD i []).length = V * 3
    rw [getD_map_range _ _ _ _ hi2]
    show (sliceLast sd i).data.length = V * 3
    simp [sliceLast, mkFlat, hd0, hd1]
  · intro i v c hi hv hc
    have hi2 : i < sd.dim 2 := by rw [hd2]; exact hi
    have hv2 : v < sd.dim 0 := by rw [hd0]; exact hv
    have hc2 : c < sd.dim 1 := by rw [hd1]; exact hc
    show (((List.range (sd.dim 2)).map (fun i => (sliceLast sd i).data)).getD i []).getD
        (v * 3 + c) 0 = sd.at3 v c i
    rw [getD_map_range _ _ _ _ hi2]
    show (mkFlat (sd.dim 0) (sd.dim 1) (fun v2 c2 => sd.at3 v2 c2 i)).getD (v * 3 + c) 0
        = sd.at3 v c i
    rw [hd1]
    exact mkFlat_getD _ _ _ _ _ hv2 hc
  · intro v c hv hc
    show vt.data.getD (v * 3 + c) 0 = vt.data.getD (v * vt.cols + c) 0
    rw [hvc]
  · intro t c ht hc
    show fc.data.getD (t * 3 + c) 0 = fc.data.getD (t * fc.cols + c) 0
    rw [hfcc]

/-- C8 witness: the hypotheses hold at a concrete model with two
vertices, two shape components and one face. -/
theorem c8_witness :
    (export_smpl_shapedirs_doc vtS sdS fcS).num_betas = 2 ∧
    (export_smpl_shapedirs_doc vtS sdS fcS).shapedirs.length = 2 ∧
    (∀ i, i < 2 → ((export_smpl_shapedirs_doc vtS sdS fcS).shapedirs.getD i []).length = 2 * 3) ∧
    (∀ i v c, i < 2 → v < 2 → c < 3 →
      ((export_smpl_shapedirs_doc vtS sdS fcS).shapedirs.getD i []).getD (v * 3 + c) 0
        = sdS.at3 v c i) ∧
    (∀ v c, v < 2 → c < 3 →
      (export_smpl_shapedirs_doc vtS sdS fcS).v_template.getD (v * 3 + c) 0 = vtS.at2 v c) ∧
    (∀ t c, t < 1 → c < 3 →
      (export_smpl_shapedirs_doc vtS sdS fcS).faces.getD (t * 3 + c) 0 = fcS.at2 t c) :=
  c8_export_rowmajor_flattening vtS sdS fcS 2 2 1 rfl rfl rfl

/- Pipeline-level helper. -/

/-- Shape of a successful export: when the four required extractions
succeed, export_smpl_pose_data returns the assembled document. -/
theorem export_ok_form (m : SMPLModelRaw) (vt R kt w : NDArray)
    (hv : extract_numpy_array m.v_template = Except.ok vt)
    (hR : extractRegressor m.J_regressor = Except.ok R)
    (hk : extract_numpy_array m.kintree_table = Except.ok kt)
    (hw : extract_numpy_array m.weights = Except.ok w) :
    export_smpl_pose_data m = Except.ok
      { num_joints := (matmul2d R vt).rows
        num_vertices := vt.rows
        v_template := vt.data
        j_regressor := R.data
        joint_positions := (matmul2d R vt).data
        kintree_table := toList2 kt
        weights := w.data
        joint_names := smplJointNames
        posedirs := (exportPosedirsOpt m).map NDArray.data
        num_pose_params := (exportPosedirsOpt m).map (fun a => a.dim 2) } := by
  unfold export_smpl_pose_data exportPosedirsOpt
  rw [hv, hR, hk, hw]

/- C2 -/

/-- C2 counterexample: on a concrete model whose kinematic table has
two sentinel (-1) parent entries, export_smpl_pose_data succeeds and
exports the table verbatim — no MultipleRootsError (or any other
kinematic validation) exists in the pipeline. -/
theorem c2_counterexample :
    1 < rootCount kintreeTwoRoots ∧
    ∃ d, export_smpl_pose_data modelTwoRoots = Except.ok d ∧
      d.kintree_table = toList2 kintreeTwoRoots :=
  ⟨by decide, ⟨_, rfl, rfl⟩⟩

/-- C2 amended: the pipeline performs no kinematic-tree validation.
For every input whose kinematic parent table has more than one
sentinel (-1) entry, as long as the required fields extract, the
export succeeds anyway: the joint positions are computed and the
offending table is copied into the document verbatim. -/
theorem c2_amended_no_kinematic_validation (m : SMPLModelRaw) (vt R kt w : NDArray)
    (hroots : 1 < rootCount kt)
    (hv : extract_numpy_array m.v_template = Except.ok vt)
    (hR : extractRegressor m.J_regressor = Except.ok R)
    (hk : extract_numpy_array m.kintree_table = Except.ok kt)
    (hw : extract_numpy_array m.weights = Except.ok w) :
    ∃ d, export_smpl_pose_data m = Except.ok d ∧
      d.kintree_table = toList2 kt ∧
      d.joint_positions = (matmul2d R vt).data :=
  ⟨_, export_ok_form m vt R kt w hv hR hk hw, rfl, rfl⟩

/-- C2 witness: the amended statement applied to the concrete
two-root model. -/
theorem c2_witness :
    ∃ d, export_smpl_pose_data modelTwoRoots = Except.ok d ∧
      d.kintree_table = toList2 kintreeTwoRoots ∧
      d.joint_positions = (matmul2d regTwo vtTwo).data :=
  c2_amended_no_kinematic_validation modelTwoRoots vtTwo regTwo kintreeTwoRoots wTwo
    (by decide) rfl rfl rfl rfl

/- C6 -/

/-- C6 counterexample: on a concrete model whose posedirs field is
present but unextractable, the pipeline does not fail: the exception
is swallowed and a degraded document without a pose basis is exported. -/
theorem c6_counterexample :
    extract_numpy_array badExtractObj = Except.error "Could not extract array" ∧
    modelBadPosedirs.posedirs = some badExtractObj ∧
    ∃ d, export_smpl_pose_data modelBadPosedirs = Except.ok d ∧
      d.posedirs = none ∧ d.num_pose_params = none :=
  ⟨rfl, rfl, ⟨_, rfl, rfl, rfl⟩⟩

/-- C6 amended: when the pose-basis field is present but array
extraction from it fails, the except clause catches the error and the
pipeline continues, exporting a document with no posedirs and no
num_pose_params instead of failing. -/
theorem c6_amended_posedirs_failure_swallowed (m : SMPLModelRaw)
    (vt R kt w : NDArray) (o : PyObj) (e : String)
    (hv : extract_numpy_array m.v_template = Except.ok vt)
    (hR : extractRegressor m.J_regressor = Except.ok R)
    (hk : extract_numpy_array m.kintree_table = Except.ok kt)
    (hw : extract_numpy_array m.weights = Except.ok w)
    (hp : m.posedirs = some o)
    (he : extract_numpy_array o = Except.error e) :
    ∃ d, export_smpl_pose_data m = Except.ok d ∧
      d.posedirs = none ∧ d.num_pose_params = none := by
  refine ⟨_, export_ok_form m vt R kt w hv hR hk hw, ?_, ?_⟩
  · show (exportPosedirsOpt m).map NDArray.data = none
    unfold exportPosedirsOpt
    rw [hp]
    show Option.map NDArray.data
        (match extract_numpy_array o with
         | Except.ok a => some a
         | Except.error _ => none) = none
    rw [he]
    rfl
  · show (exportPosedirsOpt m).map (fun a => a.dim 2) = none
    unfold exportPosedirsOpt
    rw [hp]
    show Option.map (fun a => a.dim 2)
        (match extract_numpy_array o with
         | Except.ok a => some a
         | Except.error _ => none) = none
    rw [he]
    rfl

/-- C6 witness: the amended statement applied to the concrete model
with an unextractable posedirs field. -/
theorem c6_witness :
    ∃ d, export_smpl_pose_data modelBadPosedirs = Except.ok d ∧
      d.posedirs = none ∧ d.num_pose_params = none :=
  c6_amended_posedirs_failure_swallowed modelBadPosedirs vtTwo regTwo kintreeOneRoot wTwo
    badExtractObj "Could not extract array" rfl rfl rfl rfl rfl rfl

/- C10 -/

/-- C10: every successfully exported document carries the same fixed
24-entry joint_names list, independent of the input; num_joints is the
row count of the extracted regressor, so it equals the length of
joint_names exactly when the input has 24 joints. -/
theorem c10_joint_names_fixed_list (m : SMPLModelRaw) (vt R kt w : NDArray)
    (hv : extract_numpy_array m.v_template = Except.ok vt)
    (hR : extractRegressor m.J_regressor = Except.ok R)
    (hk : extract_numpy_array m.kintree_table = Except.ok kt)
    (hw : extract_numpy_array m.weights = Except.ok w) :
    ∃ d, export_smpl_pose_data m = Except.ok d ∧
      d.joint_names = smplJointNames ∧
      smplJointNames.length = 24 ∧
      d.num_joints = R.rows ∧
      (d.num_joints = d.joint_names.length ↔ R.rows = 24) := by
  refine ⟨_, export_ok_form m vt R kt w hv hR hk hw, rfl, by decide, rfl, ?_⟩
  show (matmul2d R vt).rows = smplJointNames.length ↔ R.rows = 24
  have h1 : (matmul2d R vt).rows = R.rows := rfl
  have h2 : smplJointNames.length = 24 := by decide
  rw [h1, h2]

/-- C10 witness: the statement applied to a concrete two-joint model
(whose regressor arrives sparse), where num_joints is 2 and hence
differs from the 24-entry name list. -/
theorem c10_witness :
    ∃ d, export_smpl_pose_data modelSparseReg = Except.ok d ∧
      d.joint_names = smplJointNames ∧
      smplJointNames.length = 24 ∧
      d.num_joints = (SparseMat.todense ⟨2, 2, [(0, 0, 1), (1, 0, 1), (1, 1, 1)]⟩).rows ∧
      (d.num_joints = d.joint_names.length ↔
        (SparseMat.todense ⟨2, 2, [(0, 0, 1), (1, 0, 1), (1, 1, 1)]⟩).rows = 24) :=
  c10_joint_names_fixed_list modelSparseReg vtTwo
    (SparseMat.todense ⟨2, 2, [(0, 0, 1), (1, 0, 1), (1, 1, 1)]⟩) kintreeOneRoot wTwo
    rfl rfl rfl rfl
